import Mathlib

/-!
Verification of the parameter-normalization, styling, mode-selection and
history/persistence logic of the ImageGeneration repository.

Python integers are modelled as `Int` (Python `//` on a positive divisor
agrees with Lean's Euclidean `/` on `Int`), Python floats as `ℚ` (the code
only compares and selects via `max`/`min`, which is exact), and Python
strings as `List Char` or `String` (sequences of code points).
-/

namespace ImageGen

/-! ### Configuration constants (src/config.py, "Safety Limits") -/

def MIN_STEPS : Int := 1

def MAX_STEPS : Int := 100

def MIN_GUIDANCE_SCALE : ℚ := 1

def MAX_GUIDANCE_SCALE : ℚ := 20

def MIN_RESOLUTION : Int := 256

def MAX_HEIGHT : Int := 768

def MAX_WIDTH : Int := 768

/-! ### src/utils/image_utils.py -/

/-- `validate_dimensions(width, height, min_size, max_size)`: clamp each
dimension into `[min_size, max_size]`, then round down to a multiple of 8
(Python `(x // 8) * 8`; all clamped values are positive here, where Python
floor division agrees with `Int`'s Euclidean division). -/
def validate_dimensions (width height min_size max_size : Int) : Int × Int :=
  let w := max min_size (min width max_size)
  let h := max min_size (min height max_size)
  ((w / 8) * 8, (h / 8) * 8)

/-! ### src/core/generation.py -/

/-- The dictionary returned by `clamp_parameters`. The `strength` key is
present exactly when the `strength` argument was not `None`. -/
structure ClampedParams where
  steps : Int
  guidance_scale : ℚ
  height : Int
  width : Int
  strength : Option ℚ
  deriving Repr, DecidableEq

/-- `clamp_parameters(steps, guidance_scale, height, width, strength=None)`:
clamp steps into `[MIN_STEPS, MAX_STEPS]`, guidance into
`[MIN_GUIDANCE_SCALE, MAX_GUIDANCE_SCALE]`, fix dimensions through
`validate_dimensions(·, ·, MIN_RESOLUTION, MAX_HEIGHT)`, and clamp a present
strength into `[0, 1]`.  (`int(steps)` and `float(guidance_scale)` are
identities on the declared argument types.) -/
def clamp_parameters (steps : Int) (guidance_scale : ℚ) (height width : Int)
    (strength : Option ℚ := none) : ClampedParams :=
  let s := max MIN_STEPS (min steps MAX_STEPS)
  let g := max MIN_GUIDANCE_SCALE (min guidance_scale MAX_GUIDANCE_SCALE)
  let wh := validate_dimensions width height MIN_RESOLUTION MAX_HEIGHT
  { steps := s
    guidance_scale := g
    height := wh.2
    width := wh.1
    strength := strength.map (fun st => max 0 (min st 1)) }

/-- Helper: the clamp-and-floor of one dimension lands on a multiple of 8
inside `[256, 768]`. -/
lemma dim_ok (x : Int) :
    8 ∣ (max 256 (min x 768) / 8) * 8 ∧
      256 ≤ (max 256 (min x 768) / 8) * 8 ∧ (max 256 (min x 768) / 8) * 8 ≤ 768 := by
  set c := max 256 (min x 768) with hc
  have h1 : 256 ≤ c := le_max_left _ _
  have h2 : c ≤ 768 := by
    rw [hc]
    rcases le_total x 768 with h | h
    · exact max_le (by norm_num) (by simpa [min_eq_left h] using h)
    · simp [min_eq_right h]
  refine ⟨Dvd.intro _ (mul_comm _ _), ?_, ?_⟩ <;> omega

/-- C1: for every integer width and height, `clamp_parameters` (delegating to
`validate_dimensions` with bounds 256 and 768) returns a width and a height
that are each a multiple of 8 and lie within `[256, 768]`. -/
theorem clamp_parameters_dimensions_ok (steps : Int) (g : ℚ) (height width : Int)
    (strength : Option ℚ) :
    (8 ∣ (clamp_parameters steps g height width strength).width ∧
      256 ≤ (clamp_parameters steps g height width strength).width ∧
      (clamp_parameters steps g height width strength).width ≤ 768) ∧
    (8 ∣ (clamp_parameters steps g height width strength).height ∧
      256 ≤ (clamp_parameters steps g height width strength).height ∧
      (clamp_parameters steps g height width strength).height ≤ 768) := by
  have hw := dim_ok width
  have hh := dim_ok height
  simp only [clamp_parameters, validate_dimensions, MIN_RESOLUTION, MAX_HEIGHT]
  exact ⟨hw, hh⟩

/-- C2: `clamp_parameters` is total and saturates each numeric field at the
nearer bound: steps above 100 give 100, steps below 1 give 1, in-bounds steps
are unchanged; guidance above 20 gives 20, below 1 gives 1, in-bounds
unchanged; a present strength is clamped into `[0, 1]` and an in-bounds
strength is unchanged. -/
theorem clamp_parameters_saturates (steps : Int) (g : ℚ) (height width : Int)
    (st : ℚ) :
    (MAX_STEPS < steps → (clamp_parameters steps g height width none).steps = MAX_STEPS) ∧
    (steps < MIN_STEPS → (clamp_parameters steps g height width none).steps = MIN_STEPS) ∧
    (MIN_STEPS ≤ steps → steps ≤ MAX_STEPS →
      (clamp_parameters steps g height width none).steps = steps) ∧
    (MAX_GUIDANCE_SCALE < g →
      (clamp_parameters steps g height width none).guidance_scale = MAX_GUIDANCE_SCALE) ∧
    (g < MIN_GUIDANCE_SCALE →
      (clamp_parameters steps g height width none).guidance_scale = MIN_GUIDANCE_SCALE) ∧
    (MIN_GUIDANCE_SCALE ≤ g → g ≤ MAX_GUIDANCE_SCALE →
      (clamp_parameters steps g height width none).guidance_scale = g) ∧
    ((clamp_parameters steps g height width (some st)).strength =
      some (max 0 (min st 1))) ∧
    (0 ≤ st → st ≤ 1 →
      (clamp_parameters steps g height width (some st)).strength = some st) ∧
    ((clamp_parameters steps g height width none).strength = none) := by
  simp only [clamp_parameters, MIN_STEPS, MAX_STEPS, MIN_GUIDANCE_SCALE,
    MAX_GUIDANCE_SCALE, Option.map_some, Option.map_none]
  refine ⟨?_, ?_, ?_, ?_, ?_, ?_, rfl, ?_, rfl⟩
  · intro h; omega
  · intro h; omega
  · intro h1 h2; omega
  · intro h
    rw [min_eq_right (le_of_lt h), max_eq_right (by norm_num)]
  · intro h
    rw [max_eq_left (le_trans (min_le_left _ _) (le_of_lt h))]
  · intro h1 h2
    rw [min_eq_left h2, max_eq_right h1]
  · intro h1 h2
    simp only [Option.map]
    rw [min_eq_left h2, max_eq_right h1]

/-- Witness for C2 at concrete inputs: steps 200 saturate to 100, steps 0 to
1, steps 30 unchanged; guidance 25 saturates to 20, 1/2 to 1, 15/2
unchanged; strength 2 clamps to 1, 3/4 unchanged. -/
theorem clamp_parameters_saturates_witness :
    (clamp_parameters 200 25 512 512 none).steps = 100 ∧
    (clamp_parameters 0 25 512 512 none).steps = 1 ∧
    (clamp_parameters 30 25 512 512 none).steps = 30 ∧
    (clamp_parameters 30 25 512 512 none).guidance_scale = 20 ∧
    (clamp_parameters 30 (1/2) 512 512 none).guidance_scale = 1 ∧
    (clamp_parameters 30 (15/2) 512 512 none).guidance_scale = 15/2 ∧
    (clamp_parameters 30 25 512 512 (some (3/4))).strength = some (3/4) :=
  ⟨(clamp_parameters_saturates 200 25 512 512 0).1 (by norm_num [MAX_STEPS]),
   (clamp_parameters_saturates 0 25 512 512 0).2.1 (by norm_num [MIN_STEPS]),
   (clamp_parameters_saturates 30 25 512 512 0).2.2.1 (by norm_num [MIN_STEPS])
     (by norm_num [MAX_STEPS]),
   (clamp_parameters_saturates 30 25 512 512 0).2.2.2.1 (by norm_num [MAX_GUIDANCE_SCALE]),
   (clamp_parameters_saturates 30 (1/2) 512 512 0).2.2.2.2.1
     (by norm_num [MIN_GUIDANCE_SCALE]),
   (clamp_parameters_saturates 30 (15/2) 512 512 0).2.2.2.2.2.1
     (by norm_num [MIN_GUIDANCE_SCALE]) (by norm_num [MAX_GUIDANCE_SCALE]),
   (clamp_parameters_saturates 30 25 512 512 (3/4)).2.2.2.2.2.2.2.1
     (by norm_num) (by norm_num)⟩

/-! ### Python string primitives

`str.strip()` with no argument removes leading and trailing whitespace.
We model the ASCII whitespace characters Python treats as space. -/

/-- The ASCII characters for which Python's `str.isspace()` holds (the
whitespace relevant to `str.strip()` on ASCII text). -/
def isPySpace (c : Char) : Bool :=
  c = ' ' || c = '\t' || c = '\n' || c = '\r' || c = '\x0b' || c = '\x0c'

/-- Python `s.strip()` on a string modelled as a list of code points: drop
leading whitespace, then trailing whitespace. -/
def pyStrip (l : List Char) : List Char :=
  ((l.dropWhile isPySpace).reverse.dropWhile isPySpace).reverse

/-! ### src/core/styles.py -/

/-- One entry of `STYLE_PRESETS`: the `prompt_prefix` and `prompt_suffix`
fields (called `pre` and `suf` here) and the description.  The `extra_params`
field is `{}` for every preset and is never read, so it is omitted. -/
structure StylePreset where
  pre : List Char
  suf : List Char
  descr : String
  deriving Repr, DecidableEq

/-- The `"None"` preset: no modifications. -/
def nonePreset : StylePreset :=
  { pre := [], suf := [], descr := "No style modifications" }

/-- `STYLE_PRESETS` from src/core/styles.py, in source order. -/
def STYLE_PRESETS : List (String × StylePreset) :=
  [("None", nonePreset),
   ("Realistic Photography",
    { pre := "a high-resolution photograph of ".toList
      suf := ", ultra realistic, 8k, detailed lighting, professional photography".toList
      descr := "Photorealistic style with high detail" }),
   ("Anime",
    { pre := "anime style illustration of ".toList
      suf := ", vibrant colors, clean line art, detailed, high quality anime".toList
      descr := "Japanese anime/manga style" }),
   ("3D Render",
    { pre := "3D render of ".toList
      suf := ", octane render, highly detailed, studio lighting, 8k, CGI".toList
      descr := "3D rendered, Pixar/CGI style" }),
   ("Oil Painting",
    { pre := "oil painting of ".toList
      suf := ", classical art style, brush strokes, artistic, masterpiece".toList
      descr := "Traditional oil painting style" }),
   ("Watercolor",
    { pre := "watercolor painting of ".toList
      suf := ", soft colors, artistic, flowing, delicate, traditional art".toList
      descr := "Watercolor painting style" }),
   ("Cyberpunk",
    { pre := "cyberpunk style ".toList
      suf := ", neon lights, futuristic, high tech, dystopian, vibrant colors".toList
      descr := "Futuristic cyberpunk aesthetic" }),
   ("Fantasy Art",
    { pre := "fantasy art illustration of ".toList
      suf := ", magical, ethereal, detailed, epic, artstation trending".toList
      descr := "Fantasy and magical themes" }),
   ("Pixel Art",
    { pre := "pixel art of ".toList
      suf := ", 8-bit, retro gaming style, detailed pixels, nostalgic".toList
      descr := "Retro pixel art style" }),
   ("Comic Book",
    { pre := "comic book style illustration of ".toList
      suf := ", bold lines, vibrant colors, superhero art, dynamic".toList
      descr := "Comic book illustration style" })]

/-- `STYLE_PRESETS.get(style_name, STYLE_PRESETS["None"])`. -/
def lookupStyle (style_name : String) : StylePreset :=
  match STYLE_PRESETS.lookup style_name with
  | some st => st
  | none => nonePreset

/-- The nine named (non-`"None"`) style names, in source order. -/
def namedStyleNames : List String :=
  ["Realistic Photography", "Anime", "3D Render", "Oil Painting", "Watercolor",
   "Cyberpunk", "Fantasy Art", "Pixel Art", "Comic Book"]

/-- `apply_style(base_prompt, style_name)`: return the prompt unchanged when
it is empty or whitespace-only, else look the style up (falling back to the
`"None"` preset) and return `(prompt_prefix + base_prompt + prompt_suffix).strip()`. -/
def apply_style (base_prompt : List Char) (style_name : String) : List Char :=
  if base_prompt.isEmpty || (pyStrip base_prompt).isEmpty then base_prompt
  else
    let style := lookupStyle style_name
    pyStrip (style.pre ++ base_prompt ++ style.suf)

/-- `pyStrip` is the identity on a list whose first and last characters are
non-whitespace. -/
lemma pyStrip_eq_self_of_ends (c z : Char) (m : List Char)
    (hc : isPySpace c = false) (hz : isPySpace z = false) :
    pyStrip (c :: (m ++ [z])) = c :: (m ++ [z]):= by
  unfold pyStrip
  rw [List.dropWhile_cons_of_neg (by simp [hc])]
  rw [show (c :: (m ++ [z])).reverse = z :: (m.reverse ++ [c]) by simp]
  rw [List.dropWhile_cons_of_neg (by simp [hz])]
  simp

/-- `pyStrip (pre ++ p ++ suf)` is `pre ++ p ++ suf` whenever `pre` starts
and `suf` ends with a non-whitespace character. -/
lemma pyStrip_concat_eq_self (pre p suf : List Char)
    (h1 : pre.head?.any (fun c => !isPySpace c) = true)
    (h2 : suf.getLast?.any (fun c => !isPySpace c) = true) :
    pyStrip (pre ++ p ++ suf) = pre ++ p ++ suf := by
  match pre, h1 with
  | c :: pre1, h1 =>
    have hc : isPySpace c = false := by simpa using h1
    match hsuf : suf.reverse, h2 with
    | [], h2 =>
      rw [List.reverse_eq_nil_iff.mp hsuf] at h2
      simp at h2
    | z :: r, h2 =>
      have hsuf2 : suf = r.reverse ++ [z] := by
        have := congrArg List.reverse hsuf
        simpa using this
      have hz : isPySpace z = false := by
        rw [hsuf2] at h2
        simpa using h2
      rw [hsuf2]
      have hshape : (c :: pre1) ++ p ++ (r.reverse ++ [z]) =
          c :: ((pre1 ++ p ++ r.reverse) ++ [z]) := by simp
      rw [hshape, pyStrip_eq_self_of_ends c z _ hc hz]

/-- If the stripped prompt is non-empty, the guard in `apply_style` is not
taken. -/
lemma apply_style_guard_false (p : List Char) (h : pyStrip p ≠ []) :
    (p.isEmpty || (pyStrip p).isEmpty) = false := by
  have hp : p ≠ [] := by
    intro hnil
    exact h (by simp [hnil, pyStrip])
  simp [List.isEmpty_iff, hp, h]

/-- For a prompt that is not whitespace-only, `apply_style` strips the
concatenation of the looked-up style's fields around the prompt. -/
lemma apply_style_eq_of_nonblank (p : List Char) (h : pyStrip p ≠ [])
    (name : String) :
    apply_style p name =
      pyStrip ((lookupStyle name).pre ++ p ++ (lookupStyle name).suf) := by
  unfold apply_style
  rw [apply_style_guard_false p h]
  simp

/-- Counterexample to C3 as stated: the prompt `" "` is non-empty, yet
`apply_style` with the named style `"Anime"` returns it unchanged rather
than wrapping it in the style's fields. -/
theorem apply_style_blank_prompt_counterexample :
    apply_style " ".toList "Anime" ≠
      (lookupStyle "Anime").pre ++ " ".toList ++ (lookupStyle "Anime").suf := by
  decide

/-- C3 (amended): for every prompt that is not whitespace-only, `apply_style`
with any of the nine named styles returns exactly the style's
`prompt_prefix + prompt + prompt_suffix`; with an unknown style name it
silently falls back to the no-op `"None"` preset; and with style `"None"` it
returns the prompt unchanged modulo trimming. -/
theorem apply_style_spec (p : List Char) (h : pyStrip p ≠ []) :
    (∀ name ∈ namedStyleNames,
      apply_style p name =
        (lookupStyle name).pre ++ p ++ (lookupStyle name).suf) ∧
    apply_style p "None" = pyStrip p ∧
    (∀ s : String, s ∉ STYLE_PRESETS.map Prod.fst →
      apply_style p s = apply_style p "None") := by
  refine ⟨?_, ?_, ?_⟩
  · intro name hname
    rw [apply_style_eq_of_nonblank p h name]
    fin_cases hname <;>
      exact pyStrip_concat_eq_self _ p _ (by decide) (by decide)
  · rw [apply_style_eq_of_nonblank p h "None"]
    have : lookupStyle "None" = nonePreset := by decide
    simp [this, nonePreset]
  · intro s hs
    have hlook : STYLE_PRESETS.lookup s = none := by
      rw [List.lookup_eq_none_iff]
      intro q hq
      have hm : q.1 ∈ STYLE_PRESETS.map Prod.fst := List.mem_map_of_mem Prod.fst hq
      simp only [bne_iff_ne, ne_eq]
      intro he
      exact hs (he ▸ hm)
    unfold apply_style
    rw [apply_style_guard_false p h]
    simp only [lookupStyle, hlook]
    have : STYLE_PRESETS.lookup "None" = some nonePreset := by decide
    rw [this]

/-- Witness for C3 (amended) at the prompt `"cat"`: the `"Anime"` style wraps
it exactly, `"None"` leaves it unchanged, and the unknown name `"Sketch"`
behaves like `"None"`. -/
theorem apply_style_spec_witness :
    apply_style "cat".toList "Anime" =
      (lookupStyle "Anime").pre ++ "cat".toList ++ (lookupStyle "Anime").suf ∧
    apply_style "cat".toList "None" = pyStrip "cat".toList ∧
    apply_style "cat".toList "Sketch" = apply_style "cat".toList "None" :=
  ⟨(apply_style_spec "cat".toList (by decide)).1 "Anime" (by decide),
   (apply_style_spec "cat".toList (by decide)).2.1,
   (apply_style_spec "cat".toList (by decide)).2.2 "Sketch" (by decide)⟩

/-! ### src/config.py : get_active_mode

`GENERATION_MODE` and `HF_API_TOKEN` are module-level configuration values
read by `get_active_mode`; they appear here as the two arguments.  Python's
truthiness test `HF_API_TOKEN and HF_API_TOKEN.startswith("hf_")` is
non-emptiness together with the literal `"hf_"` being a leading piece of the
token. -/
def get_active_mode (generation_mode : String) (hf_api_token : List Char) : String :=
  if generation_mode = "local" then "local"
  else if generation_mode = "api" then "api"
  else if generation_mode = "auto" then
    if (!hf_api_token.isEmpty) && "hf_".toList.isPrefixOf hf_api_token then "api"
    else "local"
  else "local"

/-- In mode `"auto"`, `get_active_mode` reduces to the credential test. -/
lemma get_active_mode_auto (t : List Char) :
    get_active_mode "auto" t =
      if (!t.isEmpty) && "hf_".toList.isPrefixOf t then "api" else "local" := by
  simp [get_active_mode]

/-- C4: with configured mode `"auto"`, `get_active_mode` returns `"api"` iff
the credential is present and well-formed (non-empty and starting with
`"hf_"`), and `"local"` otherwise; with mode `"local"` or `"api"` it returns
that mode unchanged. -/
theorem get_active_mode_spec (t : List Char) :
    (get_active_mode "auto" t = "api" ↔
      (t ≠ [] ∧ "hf_".toList.isPrefixOf t = true)) ∧
    (¬(t ≠ [] ∧ "hf_".toList.isPrefixOf t = true) →
      get_active_mode "auto" t = "local") ∧
    get_active_mode "local" t = "local" ∧
    get_active_mode "api" t = "api" := by
  have hne : ("local" : String) ≠ "api" := by decide
  refine ⟨?_, ?_, by simp [get_active_mode], by simp [get_active_mode]⟩
  · rw [get_active_mode_auto]
    by_cases h1 : t = []
    · subst h1; simp
    · by_cases h2 : "hf_".toList.isPrefixOf t
      · simp [List.isEmpty_iff, h1, h2]
      · simp [List.isEmpty_iff, h1, h2, hne.symm]
  · intro hno
    rw [get_active_mode_auto]
    rcases Decidable.not_and_iff_or_not.mp hno with h | h
    · have : t = [] := not_not.mp h
      subst this; simp
    · have hfalse : "hf_".toList.isPrefixOf t = false :=
        Bool.not_eq_true _ ▸ eq_false_of_ne_true h
      simp only [get_active_mode_auto, hfalse, Bool.and_false, if_neg]
      simp

/-- Witness for C4: with a well-formed token the mode `"auto"` resolves to
`"api"`; with an empty token it resolves to `"local"`; `"local"` and
`"api"` pass through. -/
theorem get_active_mode_spec_witness :
    get_active_mode "auto" "hf_abc123".toList = "api" ∧
    get_active_mode "auto" [] = "local" ∧
    get_active_mode "local" "hf_abc123".toList = "local" ∧
    get_active_mode "api" [] = "api" :=
  ⟨(get_active_mode_spec "hf_abc123".toList).1.mpr (by decide),
   (get_active_mode_spec []).2.1 (by decide),
   (get_active_mode_spec "hf_abc123".toList).2.2.1,
   (get_active_mode_spec []).2.2.2⟩

/-! ### src/utils/system_utils.py : fix_seed

The argument is a dynamically typed Python value; the call sites pass
`None`, an integer, or a string, modelled by `PyVal`.  `int(s)` on a string
is modelled for ASCII decimal literals: surrounding whitespace is stripped,
an optional sign precedes the digits, and anything else raises (parses to
`none`). -/

/-- A Python value that can reach `fix_seed`: `None`, an `int`, or a `str`. -/
inductive PyVal where
  | vnone
  | vint (n : Int)
  | vstr (s : List Char)
  deriving Repr, DecidableEq

/-- Value of a list of decimal digit characters, most significant first. -/
def digitsVal (cs : List Char) : Nat :=
  cs.foldl (fun a c => a * 10 + (c.toNat - 48)) 0

/-- Parse a non-empty all-digit character list; otherwise fail. -/
def parseDigits (cs : List Char) : Option Nat :=
  if cs.isEmpty then none
  else if cs.all Char.isDigit then some (digitsVal cs) else none

/-- Model of Python `int(s)` for a string `s` (ASCII decimal form):
strip whitespace, read an optional sign and digits; `none` models the
`ValueError` raised on any other input. -/
def pyIntOfStr (s : List Char) : Option Int :=
  match pyStrip s with
  | '-' :: rest => (parseDigits rest).map (fun n => -(n : Int))
  | '+' :: rest => (parseDigits rest).map (fun n => (n : Int))
  | t => (parseDigits t).map (fun n => (n : Int))

/-- `fix_seed(seed)`: `None`, `-1` and `""` give `None`; otherwise `int(seed)`
is taken (a failure giving `None`) and negative results give `None`. -/
def fix_seed (seed : PyVal) : Option Int :=
  match seed with
  | .vnone => none
  | .vint n => if n = -1 then none else if n < 0 then none else some n
  | .vstr s =>
    if s = [] then none
    else
      match pyIntOfStr s with
      | none => none
      | some n => if n < 0 then none else some n

/-- C6: `fix_seed` maps `None`, `-1` and the empty string to `None`
(random), and whenever it returns an integer, that integer is non-negative:
the resolved seed is always a non-negative integer or absent. -/
theorem fix_seed_spec :
    fix_seed .vnone = none ∧
    fix_seed (.vint (-1)) = none ∧
    fix_seed (.vstr []) = none ∧
    ∀ v n, fix_seed v = some n → 0 ≤ n := by
  refine ⟨rfl, rfl, rfl, ?_⟩
  intro v n h
  match v with
  | .vnone => simp [fix_seed] at h
  | .vint m =>
    by_cases h1 : m = -1
    · simp [fix_seed, h1] at h
    · by_cases h2 : m < 0
      · simp [fix_seed, h1, h2] at h
      · simp [fix_seed, h1, h2] at h
        omega
  | .vstr s =>
    by_cases h1 : s = []
    · simp [fix_seed, h1] at h
    · simp only [fix_seed, if_neg h1] at h
      cases hp : pyIntOfStr s with
      | none => rw [hp] at h; simp at h
      | some m =>
        rw [hp] at h
        by_cases h2 : m < 0
        · simp [h2] at h
        · simp [h2] at h
          omega

/-- Witness for C6: `fix_seed` on the integer 5 returns 5, which the theorem
forces to be non-negative. -/
theorem fix_seed_spec_witness : (0 : Int) ≤ 5 :=
  fix_seed_spec.2.2.2 (.vint 5) 5 (by decide)

/-! ### src/core/history.py : generate_filename

The f-string `f"{timestamp}_{gen_type}_{style}_{seed}.png"` renders the seed
with Python `str`; for an integer seed this is its decimal representation. -/

/-- Decimal representation of a natural number (Python `str(n)` for
`n ≥ 0`): most significant digit first. -/
def natToDec (n : Nat) : List Char :=
  if n = 0 then ['0'] else ((Nat.digits 10 n).map Nat.digitChar).reverse

/-- Decimal representation of an integer (Python `str(n)`). -/
def intToDec (n : Int) : List Char :=
  if n < 0 then '-' :: natToDec n.natAbs else natToDec n.natAbs

lemma digitChar_inj_lt10 :
    ∀ a b : Fin 10, Nat.digitChar a = Nat.digitChar b → a = b := by decide

lemma digitChar_ne_dash : ∀ a : Fin 10, Nat.digitChar a ≠ '-' := by decide

lemma map_digitChar_inj (l1 : List Nat) :
    ∀ l2 : List Nat, (∀ x ∈ l1, x < 10) → (∀ x ∈ l2, x < 10) →
      l1.map Nat.digitChar = l2.map Nat.digitChar → l1 = l2 := by
  induction l1 with
  | nil =>
    intro l2 _ _ h
    cases l2 <;> simp_all
  | cons a t ih =>
    intro l2 h1 h2 h
    cases l2 with
    | nil => simp at h
    | cons b t2 =>
      simp only [List.map_cons, List.cons.injEq] at h
      have ha : a < 10 := h1 a (by simp)
      have hb : b < 10 := h2 b (by simp)
      have hab : a = b :=
        congrArg Fin.val (digitChar_inj_lt10 ⟨a, ha⟩ ⟨b, hb⟩ h.1)
      subst hab
      rw [ih t2 (fun x hx => h1 x (by simp [hx])) (fun x hx => h2 x (by simp [hx])) h.2]

lemma mem_natToDec_ne_dash (n : Nat) : ∀ c ∈ natToDec n, c ≠ '-' := by
  intro c hc
  unfold natToDec at hc
  split at hc
  · simp at hc
    subst hc
    decide
  · rw [List.mem_reverse] at hc
    obtain ⟨d, hd, rfl⟩ := List.mem_map.mp hc
    have hd10 : d < 10 := Nat.digits_lt_base (by norm_num) hd
    exact digitChar_ne_dash ⟨d, hd10⟩

lemma natToDec_inj {m n : Nat} (h : natToDec m = natToDec n) : m = n := by
  have key : ∀ k : Nat, k ≠ 0 → natToDec k = ['0'] → False := by
    intro k hk h0
    have hmap : (Nat.digits 10 k).map Nat.digitChar = ['0'] := by
      have := congrArg List.reverse h0
      rw [natToDec, if_neg hk] at h0
      have := congrArg List.reverse h0
      simpa using this
    have : Nat.digits 10 k = [0] := by
      apply map_digitChar_inj _ [0]
        (fun x hx => Nat.digits_lt_base (by norm_num) hx)
        (by intro x hx; simp at hx; omega)
      simpa using hmap
    have : k = 0 := by
      have hod := Nat.ofDigits_digits 10 k
      rw [this] at hod
      simpa [Nat.ofDigits] using hod.symm
    exact hk this
  by_cases hm : m = 0 <;> by_cases hn : n = 0
  · omega
  · exact absurd (by rw [← h, natToDec, if_pos hm]) (fun h0 => key n hn h0)
  · exact absurd (by rw [h, natToDec, if_pos hn]) (fun h0 => key m hm h0)
  · rw [natToDec, if_neg hm, natToDec, if_neg hn] at h
    have hmap := List.reverse_injective h
    have hdig := map_digitChar_inj _ _
      (fun x hx => Nat.digits_lt_base (by norm_num) hx)
      (fun x hx => Nat.digits_lt_base (by norm_num) hx) hmap
    have h1 := Nat.ofDigits_digits 10 m
    have h2 := Nat.ofDigits_digits 10 n
    rw [hdig] at h1
    omega

lemma intToDec_inj {a b : Int} (h : intToDec a = intToDec b) : a = b := by
  unfold intToDec at h
  by_cases ha : a < 0 <;> by_cases hb : b < 0
  · rw [if_pos ha, if_pos hb] at h
    simp only [List.cons.injEq, true_and] at h
    have := natToDec_inj h
    omega
  · rw [if_pos ha, if_neg hb] at h
    exact absurd rfl
      (mem_natToDec_ne_dash b.natAbs '-' (h ▸ List.mem_cons_self '-' _))
  · rw [if_neg ha, if_pos hb] at h
    exact absurd rfl
      (mem_natToDec_ne_dash a.natAbs '-' (h.symm ▸ List.mem_cons_self '-' _))
  · rw [if_neg ha, if_neg hb] at h
    have := natToDec_inj h
    omega

/-- The `seed` field of a metadata record: an integer, or the string
`"random"` when no seed was fixed. -/
inductive SeedField where
  | int (n : Int)
  | random
  deriving Repr, DecidableEq

/-- Rendering of the seed field by the f-string. -/
def seedStr : SeedField → List Char
  | .int n => intToDec n
  | .random => "random".toList

/-- `metadata.get("style", "none").replace(" ", "_").lower()`. -/
def normStyle (s : List Char) : List Char :=
  (s.map (fun c => if c = ' ' then '_' else c)).map Char.toLower

/-- `generate_filename(metadata)` with the timestamp, `type`, `style` and
`seed` components as arguments (the timestamp is `datetime.now()` formatted
to the second; the other three are read from the metadata record). -/
def generate_filename (timestamp gen_type style : List Char)
    (seed : SeedField) : List Char :=
  timestamp ++ "_".toList ++ gen_type ++ "_".toList ++ normStyle style
    ++ "_".toList ++ seedStr seed ++ ".png".toList

/-- C7: two metadata records with distinct integer seeds produce distinct
filenames, even with identical timestamp, generation type and style. -/
theorem generate_filename_distinct_seeds (ts gt st : List Char) (a b : Int)
    (hab : a ≠ b) :
    generate_filename ts gt st (.int a) ≠ generate_filename ts gt st (.int b) := by
  intro h
  apply hab
  apply intToDec_inj
  simp only [generate_filename, seedStr, List.append_assoc] at h
  have h1 := List.append_cancel_left h
  have h2 := List.append_cancel_left h1
  have h3 := List.append_cancel_left h2
  have h4 := List.append_cancel_left h3
  have h5 := List.append_cancel_left h4
  have h6 := List.append_cancel_left h5
  exact List.append_cancel_right h6

/-- Witness for C7: seeds 0 and 1 with equal (empty) remaining components
give different filenames. -/
theorem generate_filename_distinct_seeds_witness :
    generate_filename [] [] [] (.int 0) ≠ generate_filename [] [] [] (.int 1) :=
  generate_filename_distinct_seeds [] [] [] 0 1 (by decide)

/-! ### src/core/history.py : listing, counting, clearing

The output directory is modelled as `none` when it does not exist
(`os.path.exists` false) and otherwise as the list of entries that
`os.listdir` returns, each carrying the modification time `os.path.getmtime`
reports.  `os.remove` is modelled as always succeeding (the code logs and
skips a failing removal). -/

/-- One directory entry: file name and modification time. -/
structure FileEntry where
  name : List Char
  mtime : Int
  deriving Repr, DecidableEq

/-- The output directory: absent, or a listing. -/
def DirState := Option (List FileEntry)

/-- `f.endswith(ext)` on a file name. -/
def pyEndsWith (f ext : List Char) : Bool := ext.isSuffixOf f

/-- `filename.endswith((".png", ".json"))` in `clear_history`. -/
def matchesClearExt (f : List Char) : Bool :=
  pyEndsWith f ".png".toList || pyEndsWith f ".json".toList

/-- `list_recent_images(output_dir, limit)`: `[]` when the directory does not
exist; else the `.png` entries sorted by modification time newest first
(Python's stable sort with `reverse=True`) and truncated to `limit`. -/
def list_recent_images (dir : DirState) (limit : Nat) : List (List Char) :=
  match dir with
  | none => []
  | some entries =>
    (((entries.filter (fun e => pyEndsWith e.name ".png".toList)).mergeSort
      (fun x y => decide (y.mtime ≤ x.mtime))).map (fun e => e.name)).take limit

/-- `get_image_count(output_dir)`: 0 when the directory does not exist, else
the number of `.png` entries. -/
def get_image_count (dir : DirState) : Nat :=
  match dir with
  | none => 0
  | some entries =>
    (entries.filter (fun e => pyEndsWith e.name ".png".toList)).length

/-- `clear_history(output_dir, confirm)`: without confirmation, delete
nothing and return 0; with a missing directory return 0; else remove every
entry whose name ends in `.png` or `.json` and return how many were removed.
The returned pair is (count deleted, resulting directory). -/
def clear_history (dir : DirState) (confirm : Bool) : Nat × DirState :=
  if !confirm then (0, dir)
  else
    match dir with
    | none => (0, none)
    | some entries =>
      ((entries.filter (fun e => matchesClearExt e.name)).length,
       some (entries.filter (fun e => !matchesClearExt e.name)))

/-- C8: `clear_history` with `confirm=False` deletes nothing and returns 0;
with `confirm=True` it returns the number of `.png`/`.json` entries, and the
resulting directory holds exactly the entries whose names match neither
extension (all matching files removed, all others untouched). -/
theorem clear_history_spec (dir : DirState) (entries : List FileEntry) :
    clear_history dir false = (0, dir) ∧
    (clear_history (some entries) true).1 =
      (entries.filter (fun e => matchesClearExt e.name)).length ∧
    ∃ remaining, (clear_history (some entries) true).2 = some remaining ∧
      ∀ e, e ∈ remaining ↔ e ∈ entries ∧ matchesClearExt e.name = false := by
  refine ⟨rfl, rfl, entries.filter (fun e => !matchesClearExt e.name), rfl, ?_⟩
  intro e
  simp [List.mem_filter]

/-- Witness for C8 on a concrete three-entry directory: two files are
deleted and exactly the `.txt` file remains. -/
theorem clear_history_spec_witness :
    (clear_history
        (some [⟨"a.png".toList, 0⟩, ⟨"a.json".toList, 1⟩, ⟨"keep.txt".toList, 2⟩])
        true).1 = 2 ∧
    matchesClearExt "keep.txt".toList = false := by
  have h := clear_history_spec (some [])
    [⟨"a.png".toList, 0⟩, ⟨"a.json".toList, 1⟩, ⟨"keep.txt".toList, 2⟩]
  refine ⟨?_, by decide⟩
  rw [h.2.1]
  decide

/-- C10: when the output directory does not exist, `list_recent_images`
returns `[]`, `get_image_count` returns 0, and `clear_history` returns 0
even with `confirm=True`; none of them creates the directory (the resulting
directory state of `clear_history` stays absent; the other two are
read-only) and none fails. -/
theorem missing_output_dir_spec (limit : Nat) :
    list_recent_images none limit = [] ∧
    get_image_count none = 0 ∧
    clear_history none true = (0, none) ∧
    clear_history none false = (0, none) :=
  ⟨rfl, rfl, rfl, rfl⟩

/-! ### src/api/huggingface.py : HuggingFaceAPI.generate_img2img

The remote call is modelled by its outcome; `str(e).lower()` classification
uses a substring test (Python `in`) over lowercased ASCII text. -/

/-- Python `needle in hay` on strings: contiguous substring test. -/
def containsSub : List Char → List Char → Bool
  | [], needle => needle.isEmpty
  | c :: t, needle => needle.isPrefixOf (c :: t) || containsSub t needle

/-- Python `s.lower()` on ASCII text. -/
def lowerStr (s : List Char) : List Char := s.map Char.toLower

/-- Outcome of the remote `InferenceClient.image_to_image` call: an image,
or a raised exception with message `str(e)`. -/
inductive RemoteCall (α : Type) where
  | ok (image : α)
  | err (msg : List Char)

/-- The `except` block of `generate_img2img`: the `"loading"` branch is
checked first (and returns `None`); the fallback to `generate_text2img`
happens exactly when the lowercased message contains `"not supported"` or
`"image_to_image"` but not `"loading"`. -/
def img2imgFallbackTaken (msg : List Char) : Bool :=
  if containsSub (lowerStr msg) "loading".toList then false
  else
    containsSub (lowerStr msg) "not supported".toList
      || containsSub (lowerStr msg) "image_to_image".toList

/-- `HuggingFaceAPI.generate_img2img`, as a function of whether the token is
configured, the outcome of the remote image-to-image call, and the value the
single `generate_text2img` fallback call would return (that call issues no
further image-to-image request).  The result pairs the method's return value
(`Except.error` models the `ValueError` raised when unconfigured) with the
number of text-to-image fallback calls made. -/
def HuggingFaceAPI.generate_img2img {α : Type} (configured : Bool)
    (remote : RemoteCall α) (fallbackResult : Option α) :
    Except (List Char) (Option α) × Nat :=
  if !configured then
    (Except.error "HF_TOKEN not configured. Set environment variable or add to .env file".toList, 0)
  else
    match remote with
    | .ok image => (Except.ok (some image), 0)
    | .err msg =>
      if img2imgFallbackTaken msg then (Except.ok fallbackResult, 1)
      else (Except.ok none, 0)

/-- Counterexample to C5 as stated: the image-to-image request fails with
`"rate limit"`, yet no text-to-image fallback is made — the method returns
the null result directly with zero fallback calls. -/
theorem hf_img2img_rate_limit_no_fallback :
    HuggingFaceAPI.generate_img2img true (.err "rate limit".toList) (some (0 : Nat)) =
      (Except.ok none, 0) := by
  simp only [HuggingFaceAPI.generate_img2img, Bool.not_true, Bool.false_eq_true,
    if_false]
  have h : img2imgFallbackTaken "rate limit".toList = false := by decide
  rw [h]
  simp

/-- C5 (amended): a successful image-to-image call never falls back; a
failing call falls back to text-to-image exactly once when its message is
classified as not-supported (lowercased message without `"loading"` and with
`"not supported"` or `"image_to_image"`), and otherwise reports failure (a
null result) with no fallback; the fallback is never taken more than once. -/
theorem hf_generate_img2img_spec {α : Type} (image : α) (msg : List Char)
    (fb : Option α) :
    HuggingFaceAPI.generate_img2img true (.ok image) fb = (Except.ok (some image), 0) ∧
    (img2imgFallbackTaken msg = true →
      HuggingFaceAPI.generate_img2img true (.err msg) fb = (Except.ok fb, 1)) ∧
    (img2imgFallbackTaken msg = false →
      HuggingFaceAPI.generate_img2img true (.err msg) fb = (Except.ok none, 0)) ∧
    (HuggingFaceAPI.generate_img2img true (.err msg) fb).2 ≤ 1 := by
  refine ⟨rfl, ?_, ?_, ?_⟩
  · intro h
    simp [HuggingFaceAPI.generate_img2img, h]
  · intro h
    simp [HuggingFaceAPI.generate_img2img, h]
  · by_cases h : img2imgFallbackTaken msg <;>
      simp [HuggingFaceAPI.generate_img2img, h]

/-- Witness for C5 (amended): a not-supported failure falls back exactly
once and returns the fallback's image. -/
theorem hf_generate_img2img_spec_witness :
    HuggingFaceAPI.generate_img2img true
        (.err "image_to_image is not supported for this model".toList) (some (3 : Nat)) =
      (Except.ok (some 3), 1) :=
  (hf_generate_img2img_spec (0 : Nat)
      "image_to_image is not supported for this model".toList (some 3)).2.1 (by decide)

/-! ### src/core/generation.py : generate_text2img / generate_img2img

The diffusion pipeline is an external collaborator, modelled as a function
argument from the styled prompt and clamped parameters to an image or a
raised error; everything before that call is pure.  The `torch.Generator`
handling (`get_torch_generator`) carries no information relevant to
validation or metadata and is omitted.  An input image is modelled by its
`(width, height)` size, the only attribute the pure part reads. -/

/-- The metadata dictionary built by the generation functions (`strength` is
present only for image-to-image, `seed = none` renders as `"random"`). -/
structure GenMetadata where
  prompt : List Char
  styled_prompt : List Char
  style : String
  strength : Option ℚ
  steps : Int
  guidance_scale : ℚ
  height : Int
  width : Int
  seed : Option Int
  gtype : String

/-- Errors raised by the generation functions: the validation `ValueError`s,
or whatever the pipeline call raises (re-raised after logging). -/
inductive GenError where
  | validation (msg : String)
  | pipeline (msg : String)

/-- `generate_text2img(pipe, prompt, style, num_inference_steps,
guidance_scale, height, width, seed, device)`. -/
def generate_text2img {α : Type}
    (pipe : List Char → Int → ℚ → Int → Int → Except String α)
    (prompt : List Char) (style : String) (num_inference_steps : Int)
    (guidance_scale : ℚ) (height width : Int) (seed : Option Int) :
    Except GenError (α × GenMetadata) :=
  if prompt.isEmpty || (pyStrip prompt).isEmpty then
    Except.error (GenError.validation "Prompt cannot be empty")
  else
    let styled_prompt := apply_style (pyStrip prompt) style
    let params := clamp_parameters num_inference_steps guidance_scale height width none
    let fixed_seed := fix_seed (match seed with | none => .vnone | some n => .vint n)
    let metadata : GenMetadata :=
      { prompt := prompt, styled_prompt := styled_prompt, style := style
        strength := none, steps := params.steps
        guidance_scale := params.guidance_scale, height := params.height
        width := params.width, seed := fixed_seed, gtype := "text2img" }
    match pipe styled_prompt params.steps params.guidance_scale params.height
        params.width with
    | .ok image => Except.ok (image, metadata)
    | .error e => Except.error (GenError.pipeline e)

/-- `generate_img2img(pipe, prompt, init_image, strength, style,
num_inference_steps, guidance_scale, seed, device)`.  The input image is its
size; `to_rgb` does not change the size and the resize branch feeds the
validated size to the pipeline. -/
def generate_img2img {α : Type}
    (pipe : List Char → Int × Int → Option ℚ → Int → ℚ → Except String α)
    (prompt : List Char) (init_image : Option (Int × Int)) (strength : ℚ)
    (style : String) (num_inference_steps : Int) (guidance_scale : ℚ)
    (seed : Option Int) : Except GenError (α × GenMetadata) :=
  if prompt.isEmpty || (pyStrip prompt).isEmpty then
    Except.error (GenError.validation "Prompt cannot be empty")
  else
    match init_image with
    | none =>
      Except.error
        (GenError.validation "Input image is required for image-to-image generation")
    | some sz =>
      let styled_prompt := apply_style (pyStrip prompt) style
      let params :=
        clamp_parameters num_inference_steps guidance_scale 512 512 (some strength)
      let fixed_seed := fix_seed (match seed with | none => .vnone | some n => .vint n)
      let wh := validate_dimensions sz.1 sz.2 MIN_RESOLUTION MAX_HEIGHT
      let metadata : GenMetadata :=
        { prompt := prompt, styled_prompt := styled_prompt, style := style
          strength := params.strength, steps := params.steps
          guidance_scale := params.guidance_scale, height := wh.2
          width := wh.1, seed := fixed_seed, gtype := "img2img" }
      match pipe styled_prompt wh params.strength params.steps
          params.guidance_scale with
      | .ok image => Except.ok (image, metadata)
      | .error e => Except.error (GenError.pipeline e)

/-- The validation guard fires exactly on empty or whitespace-only prompts. -/
lemma prompt_guard_iff (p : List Char) :
    (p.isEmpty || (pyStrip p).isEmpty) = true ↔ pyStrip p = [] := by
  constructor
  · intro h
    rcases Bool.or_eq_true_iff.mp h with h | h
    · rw [List.isEmpty_iff.mp h]
      rfl
    · exact List.isEmpty_iff.mp h
  · intro h
    simp [h]

/-- C9: each generation function raises a validation error iff the prompt is
empty or whitespace-only (and, for image-to-image, also when the input image
is absent), and in those cases the result does not depend on the pipeline:
the rejection happens before any generation step. -/
theorem generation_validation_spec {α : Type}
    (pipe pipe' : List Char → Int → ℚ → Int → Int → Except String α)
    (ipipe ipipe' : List Char → Int × Int → Option ℚ → Int → ℚ → Except String α)
    (prompt : List Char) (style : String) (steps : Int) (g : ℚ)
    (height width : Int) (seed : Option Int) (img : Option (Int × Int))
    (strength : ℚ) :
    ((∃ m, generate_text2img pipe prompt style steps g height width seed =
        Except.error (GenError.validation m)) ↔ pyStrip prompt = []) ∧
    (pyStrip prompt = [] →
      generate_text2img pipe prompt style steps g height width seed =
        generate_text2img pipe' prompt style steps g height width seed) ∧
    ((∃ m, generate_img2img ipipe prompt img strength style steps g seed =
        Except.error (GenError.validation m)) ↔
      (pyStrip prompt = [] ∨ img = none)) ∧
    ((pyStrip prompt = [] ∨ img = none) →
      generate_img2img ipipe prompt img strength style steps g seed =
        generate_img2img ipipe' prompt img strength style steps g seed) := by
  by_cases hp : pyStrip prompt = []
  · have hguard : (prompt.isEmpty || (pyStrip prompt).isEmpty) = true :=
      (prompt_guard_iff prompt).mpr hp
    refine ⟨?_, ?_, ?_, ?_⟩
    · simp [generate_text2img, hguard, hp]
    · intro _
      simp [generate_text2img, hguard]
    · simp [generate_img2img, hguard, hp]
    · intro _
      simp [generate_img2img, hguard]
  · have hguard : (prompt.isEmpty || (pyStrip prompt).isEmpty) = false := by
      rcases Bool.eq_false_or_eq_true (prompt.isEmpty || (pyStrip prompt).isEmpty)
        with h | h
      · exact absurd ((prompt_guard_iff prompt).mp h) hp
      · exact h
    refine ⟨?_, fun h => absurd h hp, ?_, ?_⟩
    · simp only [generate_text2img, hguard, Bool.false_eq_true, if_false]
      constructor
      · rintro ⟨m, hm⟩
        rcases hpipe : pipe (apply_style (pyStrip prompt) style)
            (clamp_parameters steps g height width none).steps
            (clamp_parameters steps g height width none).guidance_scale
            (clamp_parameters steps g height width none).height
            (clamp_parameters steps g height width none).width with img0 | e
        · rw [hpipe] at hm
          simp at hm
        · rw [hpipe] at hm
          simp at hm
      · intro h
        exact absurd h hp
    · simp only [generate_img2img, hguard, Bool.false_eq_true, if_false]
      cases img with
      | none => simp
      | some sz =>
        simp only [Option.some_ne_none, or_false]
        constructor
        · rintro ⟨m, hm⟩
          rcases hpipe : ipipe (apply_style (pyStrip prompt) style)
              (validate_dimensions sz.1 sz.2 MIN_RESOLUTION MAX_HEIGHT)
              (clamp_parameters steps g 512 512 (some strength)).strength
              (clamp_parameters steps g 512 512 (some strength)).steps
              (clamp_parameters steps g 512 512 (some strength)).guidance_scale
            with img0 | e
          · rw [hpipe] at hm
            simp at hm
          · rw [hpipe] at hm
            simp at hm
        · intro h
          exact absurd h hp
    · intro h
      rcases h with h | h
      · exact absurd h hp
      · subst h
        simp [generate_img2img, hguard]

/-- Witness for C9: the empty prompt is rejected with a validation error by
both functions, independently of the pipeline, and a missing image is
rejected by image-to-image. -/
theorem generation_validation_spec_witness :
    (∃ m, generate_text2img (fun _ _ _ _ _ => Except.ok (0 : Nat)) [] "None"
        30 (15/2) 512 512 none = Except.error (GenError.validation m)) ∧
    (∃ m, generate_img2img (fun _ _ _ _ _ => Except.ok (0 : Nat)) "cat".toList
        none (3/4) "None" 30 (15/2) none = Except.error (GenError.validation m)) :=
  ⟨(generation_validation_spec (fun _ _ _ _ _ => Except.ok (0 : Nat))
      (fun _ _ _ _ _ => Except.ok 0) (fun _ _ _ _ _ => Except.ok 0)
      (fun _ _ _ _ _ => Except.ok 0) [] "None" 30 (15/2) 512 512 none none
      (3/4)).1.mpr (by decide),
   (generation_validation_spec (fun _ _ _ _ _ => Except.ok (0 : Nat))
      (fun _ _ _ _ _ => Except.ok 0) (fun _ _ _ _ _ => Except.ok 0)
      (fun _ _ _ _ _ => Except.ok 0) "cat".toList "None" 30 (15/2) 512 512
      none none (3/4)).2.2.1.mpr (Or.inr rfl)⟩

end ImageGen
